import Mathlib

/-!
Shallow embedding of the Flask service in `src/main.py` (llama-container):
the upload-validate-dispatch-respond pipeline, the staging-directory cleanup
route, the team-metadata projection route and the detect route, together with
theorems checking the natural-language specification against this embedding.

Machine-level concerns (actual disk writes, the external LlamaParse client,
MongoDB, the transformer classifier) are modelled as explicit parameters:
the staging directory is a list of (path, bytes) entries, the outcome of the
external parse call is an input of the model, and so on.  All control flow,
string matching, response bodies and status codes are translated directly
from the source.
-/

namespace LlamaContainer

/-! ### A small JSON value model (the image of Flask's `jsonify`) -/

inductive Json where
  | null
  | str (s : String)
  | num (n : Int)
  | arr (xs : List Json)
  | obj (fields : List (String × Json))

/-- Field lookup in an association list of JSON object members
(first binding wins, as in a Python dict built in order). -/
def getFieldList (k : String) : List (String × Json) → Option Json
  | [] => none
  | (key, v) :: rest => if key = k then some v else getFieldList k rest

/-- Look up a member of a JSON object; `none` on non-objects. -/
def Json.getField : Json → String → Option Json
  | .obj fs, k => getFieldList k fs
  | _, _ => none

/-- Whether a JSON value is the literal `null`. -/
def Json.isNull : Json → Bool
  | .null => true
  | _ => false

/-- An HTTP response as produced by `return jsonify(...), status`. -/
structure HttpResult where
  body : Json
  status : Nat

/-! ### String helpers (ASCII-faithful models of the Python `str` methods used) -/

/-- `matchAt s pat` holds when `pat` occurs at the very start of `s`. -/
def matchAt : List Char → List Char → Bool
  | _, [] => true
  | [], _ :: _ => false
  | c :: cs, p :: ps => c = p && matchAt cs ps

/-- `containsChars s pat`: `pat` occurs somewhere in `s`
(Python `pat in s`). -/
def containsChars : List Char → List Char → Bool
  | [], pat => matchAt [] pat
  | c :: cs, pat => matchAt (c :: cs) pat || containsChars cs pat

/-- Python `pat in s` on strings. -/
def containsSub (s pat : String) : Bool :=
  containsChars s.data pat.data

/-- Python `s.endswith(suf)`. -/
def strEnds (s suf : String) : Bool :=
  matchAt s.data.reverse suf.data.reverse

/-- ASCII lower-casing of one character (the only case `str.lower`
needs for the filenames and extensions handled here). -/
def lowerChar (c : Char) : Char :=
  if 'A' ≤ c && c ≤ 'Z' then Char.ofNat (c.toNat + 32) else c

/-- Python `s.lower()` restricted to ASCII. -/
def lowerStr (s : String) : String :=
  String.mk (s.data.map lowerChar)

/-! ### Error classifier (`except` handler of `upload_file`, lines 124-153) -/

/-- Message test of the first rule (line 130). -/
def hasDnsIndicator (m : String) : Bool :=
  containsSub m "DNS resolution failed" || containsSub m "Name or service not known"

/-- Message test of the second rule (line 142). -/
def hasAuthIndicator (m : String) : Bool :=
  containsSub m "401" || containsSub m "Unauthorized" || containsSub m "Invalid token format"

/-- The user-facing error category assigned by the handler. -/
inductive ErrCategory where
  | dnsFailure
  | authFailure
  | generic
deriving DecidableEq

/-- Category chosen by the ordered string-matching rules. -/
def classifyCategory (m : String) : ErrCategory :=
  if hasDnsIndicator m then .dnsFailure
  else if hasAuthIndicator m then .authFailure
  else .generic

def dnsSuggestions : List String :=
  ["Check your internet connection",
   "Try changing DNS to 8.8.8.8 or 1.1.1.1",
   "Flush DNS cache: ipconfig /flushdns",
   "Check firewall settings"]

def authSuggestions : List String :=
  ["Check your API key",
   "Generate a new API key from LlamaIndex Cloud",
   "Set the correct key in your code or environment variable"]

/-- The response built by the `except` handler from the exception message
`err_msg` and the formatted traceback `tb` (lines 124-153). -/
def classifyError (err_msg tb : String) : HttpResult :=
  if hasDnsIndicator err_msg then
    ⟨.obj [("error", .str "DNS resolution failed. Cannot reach LlamaParse API."),
           ("suggestions", .arr (dnsSuggestions.map .str)),
           ("traceback", .str tb)], 500⟩
  else if hasAuthIndicator err_msg then
    ⟨.obj [("error", .str "LlamaParse API key is invalid or expired."),
           ("suggestions", .arr (authSuggestions.map .str)),
           ("traceback", .str tb)], 401⟩
  else
    ⟨.obj [("error", .str "LlamaParse Python client failed"),
           ("py_error", .str err_msg),
           ("traceback", .str tb)], 500⟩

/-! ### base64 (the `base64.b64encode(...).decode('utf-8')` calls) -/

def b64Alphabet : List Char :=
  "ABCDEFGHIJKLMNOPQRSTUVWXYZabcdefghijklmnopqrstuvwxyz0123456789+/".data

def b64Char (n : Nat) : Char := b64Alphabet.getD n 'A'

/-- Standard base64 of a byte list (bytes as `Nat` values below 256),
with `=` padding, as produced by Python `base64.b64encode`. -/
def b64encodeBytes : List Nat → List Char
  | [] => []
  | [a] => [b64Char (a / 4), b64Char (a % 4 * 16), '=', '=']
  | [a, b] => [b64Char (a / 4), b64Char (a % 4 * 16 + b / 16), b64Char (b % 16 * 4), '=']
  | a :: b :: c :: rest =>
      b64Char (a / 4) :: b64Char (a % 4 * 16 + b / 16) ::
      b64Char (b % 16 * 4 + c / 64) :: b64Char (c % 64) :: b64encodeBytes rest

def b64encode (bs : List Nat) : String := String.mk (b64encodeBytes bs)

/-! ### Path helpers (`os.path.join`, `os.path.splitext`, path containment) -/

/-- `os.path.join(a, b)` on POSIX for a non-empty `a`: `b` wins when
absolute, otherwise the parts are joined with a single separator. -/
def osPathJoin (a b : String) : String :=
  if matchAt b.data ['/'] then b
  else if strEnds a "/" then a ++ b else a ++ "/" ++ b

/-- Split a character list into path segments at `/`. -/
def splitSegs : List Char → List (List Char)
  | [] => [[]]
  | c :: cs =>
      if c = '/' then [] :: splitSegs cs
      else
        match splitSegs cs with
        | [] => [[c]]
        | s :: ss => (c :: s) :: ss

/-- Lexical path normalisation on segments: drop empty and `.` segments,
let `..` cancel the previous segment (as for paths below a fixed root). -/
def normSegs (segs : List (List Char)) : List (List Char) :=
  segs.foldl
    (fun acc seg =>
      if seg = [] ∨ seg = ['.'] then acc
      else if seg = ['.', '.'] then acc.dropLast
      else acc ++ [seg]) []

/-- `pathInsideDir p dir`: after lexical normalisation, `p` denotes a file
strictly below the directory `dir`. -/
def pathInsideDir (p dir : String) : Bool :=
  let np := normSegs (splitSegs p.data)
  let nd := normSegs (splitSegs dir.data)
  List.isPrefixOf nd np && decide (nd.length < np.length)

/-- The extension part of `os.path.splitext(s)[1]`, lower-cased as on
line 76 of the source: the suffix from the last `.` of the basename,
empty when the basename has no `.` preceded by a non-dot character. -/
def extScan : List Char → Bool → List Char → List Char
  | [], _, best => best
  | c :: cs, seenNonDot, best =>
      if c = '.' then
        if seenNonDot then extScan cs seenNonDot (c :: cs)
        else extScan cs seenNonDot best
      else extScan cs true best

/-- Part of a path after its last `/` (the basename). -/
def baseNamePart (cs : List Char) : List Char :=
  cs.foldl (fun acc c => if c = '/' then [] else acc ++ [c]) []

/-- `os.path.splitext(s)[1].lower()` (source line 76). -/
def splitextExt (s : String) : String :=
  lowerStr (String.mk (extScan (baseNamePart s.data) false []))

/-! ### The upload route `upload_file` (lines 39-153) -/

/-- Constant `UPLOAD_FOLDER = 'uploads'` (line 14). -/
def UPLOAD_FOLDER : String := "uploads"

/-- Constant `MAX_SIZE = 20 * 1024 * 1024` (line 20). -/
def MAX_SIZE : Nat := 20 * 1024 * 1024

/-- The tuple `allowed_ext` (line 46). -/
def allowed_ext : List String := [".ppt", ".pptx", ".pdf", ".png", ".jpg", ".jpeg"]

/-- The list the dispatch tests `ext` against (line 77). -/
def imageExts : List String := [".png", ".jpg", ".jpeg"]

/-- One record of `result.get_image_documents(...)`: raw image bytes and
the optional `description` attribute read by `getattr(img_doc, 'description', '')`. -/
structure ImageDoc where
  image_bytes : List Nat
  description : Option String
deriving DecidableEq

/-- One entry of `result.pages`; each attribute read through
`getattr(page, attr, default)` is optional in the parser output. -/
structure PageObj where
  text : Option String
  md : Option String
  images : Option (List Json)
  layout : Option (List (String × Json))
  structuredData : Option (List (String × Json))

/-- One entry of `result.get_markdown_documents(split_by_page=True)`:
an optional `markdown` attribute, else its `str(...)` representation. -/
structure MdDoc where
  markdown : Option String
  strRep : String
deriving DecidableEq

/-- The successful output of `parser.parse(filepath)` together with the
accessor results the handler reads from it. -/
structure ParseData where
  image_documents : List ImageDoc
  pages : List PageObj
  markdown_documents : List MdDoc

/-- Outcome of the external `parser.parse` call: success, or an exception
carrying `str(e)` and the formatted traceback. -/
inductive ParseOutcome where
  | ok (r : ParseData)
  | failure (msg : String) (tb : String)

/-- Ambient configuration and external-world behaviour of one request:
the `LLAMA_CLOUD_API_KEY` value (`none` models unset or empty, both falsy
in `if not api_key`), whether `file.save` raises (and its message), and
the outcome of the parse call. -/
structure UploadEnv where
  apiKey : Option String
  saveFails : Bool
  saveErr : String
  outcome : ParseOutcome

/-- The incoming multipart request: presence of the `file` part, its
`filename`, and its byte content (whose length `file.tell()` reports
after seeking to the end). -/
structure UploadRequest where
  hasFilePart : Bool
  filename : String
  content : List Nat
deriving DecidableEq

/-- The staging directory as a flat map from path to file bytes. -/
abbrev Staging := List (String × List Nat)

/-- `file.save(filepath)`: write (or overwrite) the file at `path`. -/
def saveFile (st : Staging) (path : String) (bytes : List Nat) : Staging :=
  (path, bytes) :: st.filter (fun e => e.1 ≠ path)

/-- `open(filepath, 'rb').read()` against the staging model. -/
def readStaged (st : Staging) (path : String) : List Nat :=
  match st with
  | [] => []
  | (p, bs) :: rest => if p = path then bs else readStaged rest path

/-- Everything one call of the route produces: the HTTP response, the
staging directory afterwards, and whether the external parse call was made. -/
structure UploadOutcome where
  resp : HttpResult
  staging : Staging
  externalCall : Bool

/-- Shape of one entry of `images_info` (lines 86-90). -/
def imageInfoJson (d : ImageDoc) : Json :=
  .obj [("image_base64", .str (b64encode d.image_bytes)),
        ("description", .str (d.description.getD ""))]

/-- Shape of one entry of `pages` (lines 101-109). -/
def pageJson (p : PageObj) : Json :=
  .obj [("text", .str (p.text.getD "")),
        ("md", .str (p.md.getD "")),
        ("images", .arr (p.images.getD [])),
        ("layout", .obj (p.layout.getD [])),
        ("structuredData", .obj (p.structuredData.getD []))]

/-- `doc.markdown if hasattr(doc, 'markdown') else str(doc)` (line 118). -/
def mdString (d : MdDoc) : String :=
  match d.markdown with
  | some m => m
  | none => d.strRep

/-- The `/upload` handler (lines 39-153), translated branch by branch. -/
def upload_file (env : UploadEnv) (req : UploadRequest) (st : Staging) : UploadOutcome :=
  if req.hasFilePart = false then
    ⟨⟨.obj [("error", .str "No file part in the request.")], 400⟩, st, false⟩
  else if req.filename = "" then
    ⟨⟨.obj [("error", .str "No file selected for upload.")], 400⟩, st, false⟩
  else if (allowed_ext.any fun e => strEnds (lowerStr req.filename) e) = false then
    ⟨⟨.obj [("error", .str "Invalid file type. Only PPT, PPTX, PDF, PNG, JPG, or JPEG allowed.")], 400⟩,
      st, false⟩
  else if req.content.length > MAX_SIZE then
    ⟨⟨.obj [("error", .str "File too large. Max size is 20MB.")], 400⟩, st, false⟩
  else if env.saveFails = true then
    ⟨⟨.obj [("error", .str "Failed to save file."), ("details", .str env.saveErr)], 500⟩, st, false⟩
  else
    let filepath := osPathJoin UPLOAD_FOLDER req.filename
    let st1 := saveFile st filepath req.content
    match env.apiKey with
    | none =>
        ⟨⟨.obj [("error", .str "LlamaParse API key not set in environment.")], 500⟩, st1, false⟩
    | some _ =>
        match env.outcome with
        | .failure msg tb => ⟨classifyError msg tb, st1, true⟩
        | .ok r =>
            if imageExts.contains (splitextExt req.filename) then
              let images_info := r.image_documents.map imageInfoJson
              let images_info :=
                if images_info.isEmpty then
                  [Json.obj [("image_base64", .str (b64encode (readStaged st1 filepath))),
                             ("description", .str "Uploaded image (no description from parser)")]]
                else images_info
              ⟨⟨.obj [("message", .str "Image uploaded and parsed successfully"),
                      ("images", .arr images_info),
                      ("pages", .arr (r.pages.map pageJson))], 200⟩, st1, true⟩
            else
              ⟨⟨.obj [("message", .str "File uploaded and parsed successfully"),
                      ("markdown_documents", .arr ((r.markdown_documents.map mdString).map .str))],
                  200⟩, st1, true⟩

/-! ### The cleanup route `clean_uploads` (lines 212-234) -/

/-- One entry of `os.listdir(UPLOAD_FOLDER)`: its name, whether
`os.path.isfile` holds for it, and whether `os.remove` would raise
(and with which message `str(e)`). -/
structure DirEntry where
  name : String
  isFile : Bool
  removeError : Option String
deriving DecidableEq

/-- Result of the deletion loop of `clean_uploads`. -/
inductive CleanResult where
  | aborted (name reason : String)
  | done (deleted : List String)
deriving DecidableEq

/-- The `for filename in os.listdir(...)` loop (lines 219-226):
`deleted` accumulates removed names, `kept` the entries left on disk.
On a failed `os.remove` the handler returns at once, so the failing
entry and everything after it stay on disk. -/
def cleanLoop : List DirEntry → List String → List DirEntry → CleanResult × List DirEntry
  | [], deleted, kept => (.done deleted, kept)
  | e :: rest, deleted, kept =>
      if e.isFile then
        match e.removeError with
        | some err => (.aborted e.name err, kept ++ e :: rest)
        | none => cleanLoop rest (deleted ++ [e.name]) kept
      else cleanLoop rest deleted (kept ++ [e])

/-- The `/clean_uploads` handler (lines 212-234): response together with
the directory entries remaining afterwards. -/
def clean_uploads (folderExists : Bool) (entries : List DirEntry) :
    HttpResult × List DirEntry :=
  if folderExists = false then
    (⟨.obj [("message", .str "Uploads folder does not exist")], 404⟩, entries)
  else
    match cleanLoop entries [] [] with
    | (.aborted name err, remaining) =>
        (⟨.obj [("error", .str ("Error deleting " ++ name ++ ": " ++ err))], 500⟩, remaining)
    | (.done deleted, remaining) =>
        (⟨.obj [("message", .str "Uploads folder cleaned successfully"),
                ("deleted_files", .arr (deleted.map .str))], 200⟩, remaining)

/-! ### The metadata route `get_teams` (lines 155-210) -/

/-- The three shapes the stored `problemStatement` field may take
(line 173-185): a bson `ObjectId` value (held as its hex string), an
embedded-id wrapper `{'$oid': s}`, or a plain string. -/
inductive PsRef where
  | oid (hex : String)
  | embedded (s : String)
  | strVal (s : String)
deriving DecidableEq

/-- One element of a team's `tasks` array: its optional `files` list. -/
structure TaskRec where
  files : Option (List String)
deriving DecidableEq

/-- One document of the `teams` collection, restricted to the projected
fields `teamName`, `tasks.files`, `problemStatement`. -/
structure TeamDoc where
  teamName : Option String
  tasks : Option (List TaskRec)
  problemStatement : Option PsRef
deriving DecidableEq

/-- One document of the `problemstatements` collection. -/
structure PsDoc where
  title : Option String
  description : Option String
deriving DecidableEq

def isHexChar (c : Char) : Bool :=
  ('0' ≤ c && c ≤ '9') || ('a' ≤ c && c ≤ 'f') || ('A' ≤ c && c ≤ 'F')

/-- Whether `bson.ObjectId(s)` accepts `s`: a 24-character hex string. -/
def isValidOid (s : String) : Bool :=
  s.data.length = 24 && s.data.all isHexChar

/-- The `ppt_links` accumulation (lines 166-169): extend with
`task['files']` whenever the key is present and the list truthy. -/
def teamFileLinks (t : TeamDoc) : List String :=
  match t.tasks with
  | none => []
  | some tasks =>
      tasks.foldl
        (fun acc task =>
          match task.files with
          | some fs => if fs.isEmpty then acc else acc ++ fs
          | none => acc) []

/-- Map an optional string to the JSON `jsonify` produces for it. -/
def optStr : Option String → Json
  | none => .null
  | some s => .str s

/-- The `problemStatement` normalisation (lines 173-185): the JSON value
`ps` returned to the client and the resolved id `ps_id`, or the error the
uncaught `ObjectId(ps['$oid'])` call raises on an invalid wrapper. -/
def resolvePs : Option PsRef → Except String (Json × Option String)
  | none => .ok (.null, none)
  | some (.oid h) => .ok (.str h, some h)
  | some (.embedded s) =>
      if isValidOid s then .ok (.str s, some s)
      else .error ("is not a valid ObjectId: " ++ s)
  | some (.strVal s) => .ok (.str s, if isValidOid s then some s else none)

/-- Association-list lookup standing for
`ps_collection.find_one({'_id': ps_id})`, keyed by the id's hex string. -/
def findPs (psColl : List (String × PsDoc)) (i : String) : Option PsDoc :=
  match psColl with
  | [] => none
  | (k, d) :: rest => if k = i then some d else findPs rest i

/-- Build one `team_data` object (lines 165-205), or fail where the
source would raise. -/
def teamProjection (psColl : List (String × PsDoc)) (t : TeamDoc) : Except String Json :=
  match resolvePs t.problemStatement with
  | .error e => .error e
  | .ok (psJson, psId) =>
      let psObj := psId.bind (findPs psColl)
      let ps_title := psObj.bind (fun d => d.title)
      let ps_description := psObj.bind (fun d => d.description)
      .ok (.obj [("teamName", optStr t.teamName),
                 ("pptLinks", .arr ((teamFileLinks t).map .str)),
                 ("problemStatement", psJson),
                 ("psTitle", optStr ps_title),
                 ("psDescription", optStr ps_description)])

/-- The loop over `teams_collection.find(...)`: first raised exception
aborts the whole route (outer `try`). -/
def projectTeams (psColl : List (String × PsDoc)) : List TeamDoc → Except String (List Json)
  | [] => .ok []
  | t :: ts =>
      match teamProjection psColl t with
      | .error e => .error e
      | .ok j =>
          match projectTeams psColl ts with
          | .error e => .error e
          | .ok js => .ok (j :: js)

/-- The document store as seen by the route: unreachable (the
`MongoClient`/`find` call raises with message `str(e)`), or the contents
of the two collections. -/
inductive StoreConn where
  | unavailable (msg : String)
  | avail (teams : List TeamDoc) (psColl : List (String × PsDoc))

/-- The `/api/teams` handler (lines 155-210). -/
def get_teams (conn : StoreConn) : HttpResult :=
  match conn with
  | .unavailable msg => ⟨.obj [("error", .str msg)], 500⟩
  | .avail teams psColl =>
      match projectTeams psColl teams with
      | .error e => ⟨.obj [("error", .str e)], 500⟩
      | .ok js => ⟨.arr js, 200⟩

/-! ### The `/detect` route (lines 237-252) -/

/-- The `/detect` handler.  `data` is the parsed request JSON object
(`none` when absent or not an object); `label` and `scoreTimes10` stand
for the external classifier's top label and `int(score * 10)`. -/
def detect (data : Option (List (String × Json))) (label : String) (scoreTimes10 : Int) :
    HttpResult :=
  match data with
  | none =>
      ⟨.obj [("error", .str "Invalid request. Please provide \x27text\x27 field.")], 400⟩
  | some fields =>
      if fields.isEmpty || (getFieldList "text" fields).isNone then
        ⟨.obj [("error", .str "Invalid request. Please provide \x27text\x27 field.")], 400⟩
      else
        ⟨.obj [("label", .str label), ("score", .num scoreTimes10)], 200⟩

/-! ## Theorems -/

/-- C6: The error classifier is a deterministic function of the raw exception
message (the same message always yields the same category), and on a message
matching both a DNS-failure indicator and an auth-failure indicator the DNS
rule wins: the category is `dnsFailure` and the response status is 500, not
the 401 of `authFailure`. -/
theorem classifier_deterministic_dns_priority :
    (∀ m1 m2 : String, m1 = m2 → classifyCategory m1 = classifyCategory m2) ∧
    (∀ m tb : String, hasDnsIndicator m = true → hasAuthIndicator m = true →
      classifyCategory m = .dnsFailure ∧ (classifyError m tb).status = 500) := by
  refine ⟨fun m1 m2 h => h ▸ rfl, fun m tb hd _ => ⟨?_, ?_⟩⟩
  · simp [classifyCategory, hd]
  · simp [classifyError, hd]

theorem classifier_deterministic_dns_priority_witness :
    hasDnsIndicator "DNS resolution failed: Unauthorized" = true ∧
    hasAuthIndicator "DNS resolution failed: Unauthorized" = true ∧
    classifyCategory "DNS resolution failed: Unauthorized" = .dnsFailure ∧
    (classifyError "DNS resolution failed: Unauthorized" "trace text").status = 500 := by
  have h := classifier_deterministic_dns_priority.2
    "DNS resolution failed: Unauthorized" "trace text" (by decide) (by decide)
  exact ⟨by decide, by decide, h.1, h.2⟩

/-- C7: Whatever category the classifier assigns (DNS, auth, or generic),
the JSON error report contains the original formatted traceback under the
`traceback` key; the trace is never discarded. -/
theorem classify_error_keeps_traceback (msg tb : String) :
    Json.getField (classifyError msg tb).body "traceback" = some (.str tb) := by
  unfold classifyError
  split
  · rfl
  · split
    · rfl
    · rfl

/-- C8: In the shaped image response, each optional per-page field the parser
output omits defaults to the empty string (`text`, `md`), the empty sequence
(`images`), or the empty mapping (`layout`, `structuredData`); an omitted
image description defaults to the empty string; and no field value emitted
by the shaping code is ever JSON `null`. -/
theorem shaper_defaults_and_no_null :
    (∀ p : PageObj,
      (p.text = none → Json.getField (pageJson p) "text" = some (.str "")) ∧
      (p.md = none → Json.getField (pageJson p) "md" = some (.str "")) ∧
      (p.images = none → Json.getField (pageJson p) "images" = some (.arr [])) ∧
      (p.layout = none → Json.getField (pageJson p) "layout" = some (.obj [])) ∧
      (p.structuredData = none →
        Json.getField (pageJson p) "structuredData" = some (.obj []))) ∧
    (∀ d : ImageDoc, d.description = none →
      Json.getField (imageInfoJson d) "description" = some (.str "")) ∧
    (∀ (p : PageObj) (k : String) (j : Json),
      Json.getField (pageJson p) k = some j → j.isNull = false) ∧
    (∀ (d : ImageDoc) (k : String) (j : Json),
      Json.getField (imageInfoJson d) k = some j → j.isNull = false) := by
  refine ⟨fun p => ⟨?_, ?_, ?_, ?_, ?_⟩, fun d hd => ?_, fun p k j h => ?_, fun d k j h => ?_⟩
  · intro h; simp [pageJson, Json.getField, getFieldList, h]
  · intro h; simp [pageJson, Json.getField, getFieldList, h]
  · intro h; simp [pageJson, Json.getField, getFieldList, h]
  · intro h; simp [pageJson, Json.getField, getFieldList, h]
  · intro h; simp [pageJson, Json.getField, getFieldList, h]
  · simp [imageInfoJson, Json.getField, getFieldList, hd]
  · simp only [pageJson, Json.getField, getFieldList] at h
    repeat' split at h
    all_goals first
      | (injection h with h2; subst h2; rfl)
      | exact Option.noConfusion h
  · simp only [imageInfoJson, Json.getField, getFieldList] at h
    repeat' split at h
    all_goals first
      | (injection h with h2; subst h2; rfl)
      | exact Option.noConfusion h

theorem shaper_defaults_and_no_null_witness :
    Json.getField (pageJson ⟨none, none, none, none, none⟩) "text" = some (.str "") ∧
    Json.getField (pageJson ⟨none, none, none, none, none⟩) "md" = some (.str "") ∧
    Json.getField (pageJson ⟨none, none, none, none, none⟩) "images" = some (.arr []) ∧
    Json.getField (pageJson ⟨none, none, none, none, none⟩) "layout" = some (.obj []) ∧
    Json.getField (pageJson ⟨none, none, none, none, none⟩) "structuredData" = some (.obj []) ∧
    Json.getField (imageInfoJson ⟨[7], none⟩) "description" = some (.str "") ∧
    (Json.str "").isNull = false :=
  ⟨(shaper_defaults_and_no_null.1 _).1 rfl,
   (shaper_defaults_and_no_null.1 _).2.1 rfl,
   (shaper_defaults_and_no_null.1 _).2.2.1 rfl,
   (shaper_defaults_and_no_null.1 _).2.2.2.1 rfl,
   (shaper_defaults_and_no_null.1 _).2.2.2.2 rfl,
   shaper_defaults_and_no_null.2.1 _ rfl,
   shaper_defaults_and_no_null.2.2.1 ⟨none, none, none, none, none⟩ "text" (.str "") rfl⟩

/-- After a fully validated upload whose save succeeds, the staging
directory holds exactly the saved file on top of the previous contents,
whatever the API key, parse outcome, and dispatch branch. -/
theorem upload_staging_after (env : UploadEnv) (req : UploadRequest) (st : Staging)
    (h1 : req.hasFilePart = true) (h2 : req.filename ≠ "")
    (h3 : (allowed_ext.any fun e => strEnds (lowerStr req.filename) e) = true)
    (h4 : ¬ req.content.length > MAX_SIZE) (h5 : env.saveFails = false) :
    (upload_file env req st).staging =
      saveFile st (osPathJoin UPLOAD_FOLDER req.filename) req.content := by
  unfold upload_file
  rw [if_neg (by simp [h1]), if_neg h2, if_neg (by simp [h3]), if_neg h4,
      if_neg (by simp [h5])]
  cases env.apiKey with
  | none => rfl
  | some k =>
      cases env.outcome with
      | failure m t => rfl
      | ok r =>
          by_cases hi : imageExts.contains (splitextExt req.filename) = true <;>
            simp only [hi] <;> split <;> rfl

/-- C2: An upload whose lower-cased filename does not end in an allowed
extension, or whose byte length exceeds `MAX_SIZE = 20 * 2 ^ 20`, is answered
with status 400 with the staging directory unchanged and no external call
made. -/
theorem upload_invalid_ext_or_oversize_rejected_400
    (env : UploadEnv) (req : UploadRequest) (st : Staging)
    (h : (allowed_ext.any fun e => strEnds (lowerStr req.filename) e) = false ∨
         req.content.length > MAX_SIZE) :
    (upload_file env req st).resp.status = 400 ∧
    (upload_file env req st).staging = st ∧
    (upload_file env req st).externalCall = false := by
  rcases h with h | h
  · by_cases h1 : req.hasFilePart = false <;> by_cases h2 : req.filename = "" <;>
      simp [upload_file, h1, h2, h]
  · by_cases h1 : req.hasFilePart = false <;> by_cases h2 : req.filename = "" <;>
      by_cases h3 : (allowed_ext.any fun e => strEnds (lowerStr req.filename) e) = false <;>
      simp [upload_file, h1, h2, h3, h]

theorem upload_invalid_ext_or_oversize_rejected_400_witness :
    ((allowed_ext.any fun e => strEnds (lowerStr "evil.exe") e) = false ∨
      ([] : List Nat).length > MAX_SIZE) ∧
    (upload_file ⟨none, false, "", .ok ⟨[], [], []⟩⟩ ⟨true, "evil.exe", []⟩ []).resp.status = 400 ∧
    (upload_file ⟨none, false, "", .ok ⟨[], [], []⟩⟩ ⟨true, "evil.exe", []⟩ []).staging = [] ∧
    (upload_file ⟨none, false, "", .ok ⟨[], [], []⟩⟩ ⟨true, "evil.exe", []⟩ []).externalCall = false :=
  ⟨Or.inl (by decide),
   upload_invalid_ext_or_oversize_rejected_400 _ _ _ (Or.inl (by decide))⟩

/-- Under a validated request with a successful save and no API key, the
whole route call reduces to the 500 response over the post-save staging. -/
theorem upload_no_key_eq (env : UploadEnv) (req : UploadRequest) (st : Staging)
    (h1 : req.hasFilePart = true) (h2 : req.filename ≠ "")
    (h3 : (allowed_ext.any fun e => strEnds (lowerStr req.filename) e) = true)
    (h4 : ¬ req.content.length > MAX_SIZE) (h5 : env.saveFails = false)
    (hk : env.apiKey = none) :
    upload_file env req st =
      ⟨⟨.obj [("error", .str "LlamaParse API key not set in environment.")], 500⟩,
       saveFile st (osPathJoin UPLOAD_FOLDER req.filename) req.content, false⟩ := by
  unfold upload_file
  rw [if_neg (by simp [h1]), if_neg h2, if_neg (by simp [h3]), if_neg h4,
      if_neg (by simp [h5]), hk]

/-- C10: When a validated upload arrives but the parsing-service API key is
unset, the handler first writes the file into the staging directory and only
then returns the 500 error; after the response the staged file is present in
the staging state and no external call was made. -/
theorem upload_missing_api_key_staged_then_500
    (env : UploadEnv) (req : UploadRequest) (st : Staging)
    (h1 : req.hasFilePart = true) (h2 : req.filename ≠ "")
    (h3 : (allowed_ext.any fun e => strEnds (lowerStr req.filename) e) = true)
    (h4 : ¬ req.content.length > MAX_SIZE) (h5 : env.saveFails = false)
    (hk : env.apiKey = none) :
    (upload_file env req st).resp.status = 500 ∧
    (upload_file env req st).resp.body =
      .obj [("error", .str "LlamaParse API key not set in environment.")] ∧
    (osPathJoin UPLOAD_FOLDER req.filename, req.content) ∈ (upload_file env req st).staging ∧
    (upload_file env req st).externalCall = false := by
  rw [upload_no_key_eq env req st h1 h2 h3 h4 h5 hk]
  exact ⟨rfl, rfl, List.mem_cons_self _ _, rfl⟩

theorem upload_missing_api_key_staged_then_500_witness :
    (upload_file ⟨none, false, "", .ok ⟨[], [], []⟩⟩ ⟨true, "report.pdf", [5]⟩ []).resp.status = 500 ∧
    (upload_file ⟨none, false, "", .ok ⟨[], [], []⟩⟩ ⟨true, "report.pdf", [5]⟩ []).resp.body =
      .obj [("error", .str "LlamaParse API key not set in environment.")] ∧
    ("uploads/report.pdf", [5]) ∈
      (upload_file ⟨none, false, "", .ok ⟨[], [], []⟩⟩ ⟨true, "report.pdf", [5]⟩ []).staging ∧
    (upload_file ⟨none, false, "", .ok ⟨[], [], []⟩⟩ ⟨true, "report.pdf", [5]⟩ []).externalCall = false :=
  upload_missing_api_key_staged_then_500 _ _ _ rfl (by decide) (by decide) (by decide) rfl rfl

/-- Reading back the path just saved returns the saved bytes. -/
theorem readStaged_saveFile (st : Staging) (p : String) (bs : List Nat) :
    readStaged (saveFile st p bs) p = bs := by
  simp [readStaged, saveFile]

/-- Under a validated request with key and successful image-branch parse,
the route call reduces to the shaped 200 image response. -/
theorem upload_image_eq (env : UploadEnv) (req : UploadRequest) (st : Staging)
    (h1 : req.hasFilePart = true) (h2 : req.filename ≠ "")
    (h3 : (allowed_ext.any fun e => strEnds (lowerStr req.filename) e) = true)
    (h4 : ¬ req.content.length > MAX_SIZE) (h5 : env.saveFails = false)
    (k : String) (hk : env.apiKey = some k)
    (r : ParseData) (ho : env.outcome = .ok r)
    (hi : imageExts.contains (splitextExt req.filename) = true) :
    upload_file env req st =
      ⟨⟨.obj [("message", .str "Image uploaded and parsed successfully"),
              ("images", .arr
                (if (r.image_documents.map imageInfoJson).isEmpty then
                  [Json.obj [("image_base64", .str (b64encode req.content)),
                             ("description", .str "Uploaded image (no description from parser)")]]
                 else r.image_documents.map imageInfoJson)),
              ("pages", .arr (r.pages.map pageJson))], 200⟩,
       saveFile st (osPathJoin UPLOAD_FOLDER req.filename) req.content, true⟩ := by
  unfold upload_file
  rw [if_neg (by simp [h1]), if_neg h2, if_neg (by simp [h3]), if_neg h4,
      if_neg (by simp [h5]), hk, ho]
  simp only [hi, if_true, readStaged_saveFile]

/-- C5: On an image upload (dispatch extension in `imageExts`) for which the
parse succeeds but yields zero image documents, the shaped response's
`images` array has exactly one entry, synthesized from the raw uploaded
bytes with the placeholder description; and on the image path the `images`
array is never empty. -/
theorem upload_image_zero_images_fallback_singleton
    (env : UploadEnv) (req : UploadRequest) (st : Staging)
    (h1 : req.hasFilePart = true) (h2 : req.filename ≠ "")
    (h3 : (allowed_ext.any fun e => strEnds (lowerStr req.filename) e) = true)
    (h4 : ¬ req.content.length > MAX_SIZE) (h5 : env.saveFails = false)
    (k : String) (hk : env.apiKey = some k)
    (r : ParseData) (ho : env.outcome = .ok r)
    (hi : imageExts.contains (splitextExt req.filename) = true) :
    (r.image_documents = [] →
      Json.getField (upload_file env req st).resp.body "images" =
        some (.arr [.obj [("image_base64", .str (b64encode req.content)),
                          ("description", .str "Uploaded image (no description from parser)")]]) ∧
      (upload_file env req st).resp.status = 200) ∧
    (∃ l, Json.getField (upload_file env req st).resp.body "images" = some (.arr l) ∧
      l ≠ []) := by
  rw [upload_image_eq env req st h1 h2 h3 h4 h5 k hk r ho hi]
  constructor
  · intro himg
    rw [himg]
    exact ⟨rfl, rfl⟩
  · by_cases he : r.image_documents = []
    · rw [he]
      exact ⟨_, rfl, by simp⟩
    · refine ⟨r.image_documents.map imageInfoJson, ?_, by simp [he]⟩
      have hne : (r.image_documents.map imageInfoJson).isEmpty = false := by
        simp [List.isEmpty_iff, he]
      simp only [Json.getField, getFieldList, hne, if_false]
      rfl

theorem upload_image_zero_images_fallback_singleton_witness :
    Json.getField
      (upload_file ⟨some "key", false, "", .ok ⟨[], [], []⟩⟩ ⟨true, "photo.png", [7]⟩ []).resp.body
      "images" =
      some (.arr [.obj [("image_base64", .str (b64encode [7])),
                        ("description", .str "Uploaded image (no description from parser)")]]) ∧
    (upload_file ⟨some "key", false, "", .ok ⟨[], [], []⟩⟩ ⟨true, "photo.png", [7]⟩ []).resp.status =
      200 :=
  (upload_image_zero_images_fallback_singleton _ _ _ rfl (by decide) (by decide) (by decide)
      rfl "key" rfl ⟨[], [], []⟩ rfl (by decide)).1 rfl

/-- C1 counterexample: the upload `../evil.pdf` passes every validator check
(the request is answered 200), is staged under the unsanitized name — the
staged path is `uploads/../evil.pdf`, which still contains the traversal
sequence `..` — and that path normalises to a location outside the staging
directory. -/
theorem upload_traversal_filename_escapes_staging :
    (upload_file ⟨some "k", false, "", .ok ⟨[], [], []⟩⟩
        ⟨true, "../evil.pdf", [1]⟩ []).resp.status = 200 ∧
    (upload_file ⟨some "k", false, "", .ok ⟨[], [], []⟩⟩
        ⟨true, "../evil.pdf", [1]⟩ []).staging = [("uploads/../evil.pdf", [1])] ∧
    containsSub "../evil.pdf" ".." = true ∧
    pathInsideDir "uploads/../evil.pdf" UPLOAD_FOLDER = false :=
  ⟨rfl, rfl, rfl, by decide⟩

theorem matchAt_slash_eq_false (l : List Char) (h : ∀ c ∈ l, c ≠ '/') :
    matchAt l ['/'] = false := by
  cases l with
  | nil => rfl
  | cons c cs => simp [matchAt, h c (List.mem_cons_self c cs)]

theorem splitSegs_no_sep (a : List Char) (h : ∀ c ∈ a, c ≠ '/') :
    splitSegs a = [a] := by
  induction a with
  | nil => rfl
  | cons c cs ih =>
      have hc : c ≠ '/' := h c (List.mem_cons_self c cs)
      have ihs := ih fun x hx => h x (List.mem_cons_of_mem c hx)
      simp [splitSegs, hc, ihs]

theorem splitSegs_sep (a b : List Char) (h : ∀ c ∈ a, c ≠ '/') :
    splitSegs (a ++ '/' :: b) = a :: splitSegs b := by
  induction a with
  | nil => simp [splitSegs]
  | cons c cs ih =>
      have hc : c ≠ '/' := h c (List.mem_cons_self c cs)
      have ihs := ih fun x hx => h x (List.mem_cons_of_mem c hx)
      simp [splitSegs, hc, ihs]

/-- C1 amended: the validator does not sanitize the filename — the staged
path is the staging directory joined with the raw filename — so the staged
path is only guaranteed to lie inside the staging directory when the
filename itself is a plain relative name: no `/` separator and not one of
the special segments `.` and `..`.  (The counterexample
`upload_traversal_filename_escapes_staging` shows an accepted filename with
a traversal sequence escaping the directory.) -/
theorem upload_plain_filename_stays_in_staging
    (env : UploadEnv) (req : UploadRequest) (st : Staging)
    (h1 : req.hasFilePart = true) (h2 : req.filename ≠ "")
    (h3 : (allowed_ext.any fun e => strEnds (lowerStr req.filename) e) = true)
    (h4 : ¬ req.content.length > MAX_SIZE) (h5 : env.saveFails = false)
    (hslash : ∀ c ∈ req.filename.data, c ≠ '/')
    (hdot : req.filename.data ≠ ['.']) (hdd : req.filename.data ≠ ['.', '.']) :
    (osPathJoin UPLOAD_FOLDER req.filename, req.content) ∈ (upload_file env req st).staging ∧
    pathInsideDir (osPathJoin UPLOAD_FOLDER req.filename) UPLOAD_FOLDER = true := by
  have hne : req.filename.data ≠ [] := by
    intro hd
    exact h2 (String.ext hd)
  have hjoin : osPathJoin UPLOAD_FOLDER req.filename = "uploads" ++ "/" ++ req.filename := by
    unfold osPathJoin UPLOAD_FOLDER
    rw [if_neg (by simp [matchAt_slash_eq_false _ hslash]), if_neg (by decide)]
  have hdata : ("uploads" ++ "/" ++ req.filename).data =
      "uploads".data ++ '/' :: req.filename.data := by
    rw [String.data_append, String.data_append, List.append_assoc]
    rfl
  have hsplit : splitSegs ("uploads" ++ "/" ++ req.filename).data =
      ["uploads".data, req.filename.data] := by
    rw [hdata, splitSegs_sep _ _ (by decide), splitSegs_no_sep _ hslash]
  have ho1 : ¬("uploads".data = ([] : List Char) ∨ "uploads".data = ['.']) := by decide
  have ho2 : "uploads".data ≠ ['.', '.'] := by decide
  have ho3 : ¬(req.filename.data = [] ∨ req.filename.data = ['.']) := not_or.mpr ⟨hne, hdot⟩
  have hnorm : normSegs ["uploads".data, req.filename.data] =
      ["uploads".data, req.filename.data] := by
    simp only [normSegs, List.foldl, if_neg ho1, if_neg ho2, if_neg ho3, if_neg hdd]
    rfl
  constructor
  · rw [upload_staging_after env req st h1 h2 h3 h4 h5]
    exact List.mem_cons_self _ _
  · rw [hjoin]
    unfold pathInsideDir
    simp only [hsplit, hnorm]
    have hnd : normSegs (splitSegs UPLOAD_FOLDER.data) = ["uploads".data] := by decide
    rw [hnd]
    simp [List.isPrefixOf]

theorem upload_plain_filename_stays_in_staging_witness :
    (osPathJoin UPLOAD_FOLDER "report.pdf", [5]) ∈
      (upload_file ⟨some "k", false, "", .ok ⟨[], [], []⟩⟩ ⟨true, "report.pdf", [5]⟩ []).staging ∧
    pathInsideDir (osPathJoin UPLOAD_FOLDER "report.pdf") UPLOAD_FOLDER = true :=
  upload_plain_filename_stays_in_staging _ _ _ rfl (by decide) (by decide) (by decide) rfl
    (by decide) (by decide) (by decide)

/-- C3 counterexample: with two regular files in the staging directory
where deleting the first fails, `clean_uploads` answers 500 naming only the
first file and stops — the second file is still present afterwards, so the
failed deletion aborts the remaining deletions instead of continuing. -/
theorem clean_uploads_aborts_on_first_failure_cex :
    clean_uploads true
        [⟨"a.pdf", true, some "Permission denied"⟩, ⟨"b.png", true, none⟩] =
      (⟨.obj [("error", .str "Error deleting a.pdf: Permission denied")], 500⟩,
       [⟨"a.pdf", true, some "Permission denied"⟩, ⟨"b.png", true, none⟩]) :=
  rfl

/-- The deletion loop when every regular file can be removed: all regular
files are deleted (and reported in order), non-files are kept. -/
theorem cleanLoop_ok (entries : List DirEntry) (deleted : List String) (kept : List DirEntry)
    (h : ∀ e ∈ entries, e.isFile = true → e.removeError = none) :
    cleanLoop entries deleted kept =
      (.done (deleted ++ ((entries.filter fun e => e.isFile).map fun e => e.name)),
       kept ++ entries.filter fun e => !e.isFile) := by
  induction entries generalizing deleted kept with
  | nil => simp [cleanLoop]
  | cons e rest ih =>
      have hrest : ∀ x ∈ rest, x.isFile = true → x.removeError = none :=
        fun x hx => h x (List.mem_cons_of_mem e hx)
      by_cases hf : e.isFile = true
      · have hr : e.removeError = none := h e (List.mem_cons_self e rest) hf
        simp [cleanLoop, hf, hr, ih _ _ hrest]
      · have hf2 : e.isFile = false := by simpa using hf
        simp [cleanLoop, hf2, ih _ _ hrest]

/-- The deletion loop aborts at the first entry whose removal fails;
entries after it are not touched. -/
theorem cleanLoop_abort (good : List DirEntry) (e : DirEntry) (rest : List DirEntry)
    (deleted : List String) (kept : List DirEntry) (err : String)
    (hgood : ∀ g ∈ good, g.isFile = true → g.removeError = none)
    (hf : e.isFile = true) (he : e.removeError = some err) :
    cleanLoop (good ++ e :: rest) deleted kept =
      (.aborted e.name err, (kept ++ good.filter fun g => !g.isFile) ++ e :: rest) := by
  induction good generalizing deleted kept with
  | nil => simp [cleanLoop, hf, he]
  | cons g gs ih =>
      have hgs : ∀ x ∈ gs, x.isFile = true → x.removeError = none :=
        fun x hx => hgood x (List.mem_cons_of_mem g hx)
      by_cases hg : g.isFile = true
      · have hr : g.removeError = none := hgood g (List.mem_cons_self g gs) hg
        simp [cleanLoop, hg, hr, ih _ _ hgs]
      · have hg2 : g.isFile = false := by simpa using hg
        simp [cleanLoop, hg2, ih _ _ hgs]

/-- C3 amended: `clean_uploads` deletes regular files in listing order until
the first failed deletion.  When no deletion fails it removes every regular
file and reports their names; when one fails it answers 500 reporting that
file's name and reason, but aborts, leaving the failing file and every entry
after it untouched (the source returns from inside the loop instead of
continuing). -/
theorem clean_uploads_deletes_until_first_failure :
    (∀ entries, (∀ e ∈ entries, e.isFile = true → e.removeError = none) →
      clean_uploads true entries =
        (⟨.obj [("message", .str "Uploads folder cleaned successfully"),
                ("deleted_files",
                  .arr (((entries.filter fun e => e.isFile).map fun e => e.name).map .str))],
            200⟩,
         entries.filter fun e => !e.isFile)) ∧
    (∀ good (e : DirEntry) rest err,
      (∀ g ∈ good, g.isFile = true → g.removeError = none) →
      e.isFile = true → e.removeError = some err →
      clean_uploads true (good ++ e :: rest) =
        (⟨.obj [("error", .str ("Error deleting " ++ e.name ++ ": " ++ err))], 500⟩,
         (good.filter fun g => !g.isFile) ++ e :: rest)) := by
  constructor
  · intro entries h
    simp [clean_uploads, cleanLoop_ok entries [] [] h]
  · intro good e rest err hgood hf he
    simp [clean_uploads, cleanLoop_abort good e rest [] [] err hgood hf he]

theorem clean_uploads_deletes_until_first_failure_witness :
    clean_uploads true [⟨"a.pdf", true, none⟩, ⟨"sub", false, none⟩, ⟨"b.png", true, none⟩] =
      (⟨.obj [("message", .str "Uploads folder cleaned successfully"),
              ("deleted_files", .arr [.str "a.pdf", .str "b.png"])], 200⟩,
       [⟨"sub", false, none⟩]) ∧
    clean_uploads true [⟨"sub", false, none⟩, ⟨"a.pdf", true, some "busy"⟩, ⟨"b.png", true, none⟩] =
      (⟨.obj [("error", .str "Error deleting a.pdf: busy")], 500⟩,
       [⟨"sub", false, none⟩, ⟨"a.pdf", true, some "busy"⟩, ⟨"b.png", true, none⟩]) :=
  ⟨clean_uploads_deletes_until_first_failure.1
      [⟨"a.pdf", true, none⟩, ⟨"sub", false, none⟩, ⟨"b.png", true, none⟩] (by decide),
   clean_uploads_deletes_until_first_failure.2
      [⟨"sub", false, none⟩] ⟨"a.pdf", true, some "busy"⟩ [⟨"b.png", true, none⟩] "busy"
      (by decide) (by decide) (by decide)⟩

/-- C4 counterexample: a team with zero file links (no tasks at all) is NOT
excluded from the metadata result — `get_teams` returns it, with an empty
`pptLinks` array, so the result contains a team whose file-link sequence is
empty. -/
theorem get_teams_includes_zero_link_team_cex :
    get_teams (.avail [⟨some "Team Alpha", none, none⟩] []) =
      ⟨.arr [.obj [("teamName", .str "Team Alpha"),
                   ("pptLinks", .arr []),
                   ("problemStatement", .null),
                   ("psTitle", .null),
                   ("psDescription", .null)]], 200⟩ :=
  rfl

/-- C4 amended: the projection excludes no team: whenever the loop body
raises nowhere, the result has exactly one entry per team record in the
store, and each entry carries that team's (possibly empty) file-link list
as its `pptLinks` field.  Teams with zero file links appear with
`pptLinks = []` rather than being excluded. -/
theorem get_teams_projects_every_team :
    (∀ (psColl : List (String × PsDoc)) (teams : List TeamDoc) (js : List Json),
      projectTeams psColl teams = .ok js → js.length = teams.length) ∧
    (∀ (psColl : List (String × PsDoc)) (t : TeamDoc) (j : Json),
      teamProjection psColl t = .ok j →
      Json.getField j "pptLinks" = some (.arr ((teamFileLinks t).map .str))) := by
  constructor
  · intro psColl teams
    induction teams with
    | nil =>
        intro js h
        simp only [projectTeams] at h
        injection h with h
        subst h
        rfl
    | cons t ts ih =>
        intro js h
        simp only [projectTeams] at h
        rcases htp : teamProjection psColl t with e | j <;> rw [htp] at h
        · exact absurd h (by simp)
        · rcases hts : projectTeams psColl ts with e2 | js2 <;> rw [hts] at h
          · exact absurd h (by simp)
          · injection h with h
            subst h
            simp [ih js2 hts]
  · intro psColl t j h
    unfold teamProjection at h
    rcases hres : resolvePs t.problemStatement with e | pj <;> rw [hres] at h
    · exact absurd h (by simp)
    · injection h with h
      subst h
      rfl

theorem get_teams_projects_every_team_witness :
    projectTeams [] [⟨some "Team Alpha", none, none⟩] =
      .ok [.obj [("teamName", .str "Team Alpha"),
                 ("pptLinks", .arr []),
                 ("problemStatement", .null),
                 ("psTitle", .null),
                 ("psDescription", .null)]] ∧
    ([Json.obj [("teamName", .str "Team Alpha"),
                ("pptLinks", .arr []),
                ("problemStatement", .null),
                ("psTitle", .null),
                ("psDescription", .null)]].length =
      [(⟨some "Team Alpha", none, none⟩ : TeamDoc)].length) ∧
    Json.getField
        (.obj [("teamName", .str "Team Alpha"),
               ("pptLinks", .arr []),
               ("problemStatement", .null),
               ("psTitle", .null),
               ("psDescription", .null)]) "pptLinks" = some (.arr []) :=
  ⟨rfl,
   get_teams_projects_every_team.1 [] [⟨some "Team Alpha", none, none⟩] _ rfl,
   get_teams_projects_every_team.2 [] ⟨some "Team Alpha", none, none⟩ _ rfl⟩

/-- Every `/upload` response either has status 200 or carries an `error`
field in its JSON body. -/
theorem upload_resp_error_or_200 (env : UploadEnv) (req : UploadRequest) (st : Staging) :
    (upload_file env req st).resp.status = 200 ∨
    ((upload_file env req st).resp.body.getField "error").isSome = true := by
  unfold upload_file classifyError
  repeat' split
  all_goals first
    | (left; rfl)
    | (right; rfl)

/-- Every `/api/teams` response either has status 200 or carries an `error`
field. -/
theorem get_teams_error_or_200 (conn : StoreConn) :
    (get_teams conn).status = 200 ∨
    ((get_teams conn).body.getField "error").isSome = true := by
  unfold get_teams
  repeat' split
  all_goals first
    | (left; rfl)
    | (right; rfl)

/-- Every `/detect` response either has status 200 or carries an `error`
field. -/
theorem detect_error_or_200 (data : Option (List (String × Json))) (label : String) (s : Int) :
    (detect data label s).status = 200 ∨
    ((detect data label s).body.getField "error").isSome = true := by
  unfold detect
  repeat' split
  all_goals first
    | (left; rfl)
    | (right; rfl)

/-- Every `/clean_uploads` response taken when the folder exists either has
status 200 or carries an `error` field. -/
theorem clean_uploads_error_or_200 (entries : List DirEntry) :
    (clean_uploads true entries).1.status = 200 ∨
    (((clean_uploads true entries).1.body).getField "error").isSome = true := by
  unfold clean_uploads
  rw [if_neg (by simp)]
  repeat' split
  all_goals first
    | (left; rfl)
    | (right; rfl)

/-- C9 counterexample: the folder-missing path of `/clean_uploads` is an
error path (status 404, non-2xx) whose JSON body has no `error` field at
all — it carries only a `message` field — refuting the claim that every
non-2xx response contains at least an `error` field. -/
theorem clean_uploads_404_lacks_error_field_cex :
    (clean_uploads false []).1.status = 404 ∧
    (clean_uploads false []).1.body.getField "error" = none ∧
    (clean_uploads false []).1.body.getField "message" =
      some (.str "Uploads folder does not exist") :=
  ⟨rfl, rfl, rfl⟩

/-- C9 amended: every non-200 response of the upload, teams and detect
routes, and every non-200 response of the cleanup route when the staging
folder exists, is a JSON object with an `error` field (the statuses produced
by these handlers are exactly 200, 400, 401, 404, 500, so non-200 coincides
with non-2xx); the single exception is the cleanup route's folder-missing
404 response, whose body carries only a `message` field and no `error`
field. -/
theorem error_paths_have_error_field_except_clean_404 :
    (∀ env req st, (upload_file env req st).resp.status ≠ 200 →
      ((upload_file env req st).resp.body.getField "error").isSome = true) ∧
    (∀ conn, (get_teams conn).status ≠ 200 →
      ((get_teams conn).body.getField "error").isSome = true) ∧
    (∀ data label s, (detect data label s).status ≠ 200 →
      ((detect data label s).body.getField "error").isSome = true) ∧
    (∀ entries, (clean_uploads true entries).1.status ≠ 200 →
      (((clean_uploads true entries).1.body).getField "error").isSome = true) ∧
    (∀ entries, (clean_uploads false entries).1.status = 404 ∧
      (clean_uploads false entries).1.body.getField "error" = none ∧
      (clean_uploads false entries).1.body.getField "message" =
        some (.str "Uploads folder does not exist")) :=
  ⟨fun env req st h => (upload_resp_error_or_200 env req st).resolve_left h,
   fun conn h => (get_teams_error_or_200 conn).resolve_left h,
   fun d l s h => (detect_error_or_200 d l s).resolve_left h,
   fun entries h => (clean_uploads_error_or_200 entries).resolve_left h,
   fun _ => ⟨rfl, rfl, rfl⟩⟩

theorem error_paths_have_error_field_except_clean_404_witness :
    ((upload_file ⟨none, false, "", .ok ⟨[], [], []⟩⟩
        ⟨false, "x.pdf", []⟩ []).resp.body.getField "error").isSome = true ∧
    ((get_teams (.unavailable "connection refused")).body.getField "error").isSome = true ∧
    ((detect none "Human-Written" 9).body.getField "error").isSome = true ∧
    (((clean_uploads true [⟨"a.pdf", true, some "busy"⟩]).1.body).getField "error").isSome = true ∧
    (clean_uploads false []).1.status = 404 :=
  ⟨error_paths_have_error_field_except_clean_404.1 _ _ _ (by decide),
   error_paths_have_error_field_except_clean_404.2.1 _ (by decide),
   error_paths_have_error_field_except_clean_404.2.2.1 _ _ _ (by decide),
   error_paths_have_error_field_except_clean_404.2.2.2.1 _ (by decide),
   (error_paths_have_error_field_except_clean_404.2.2.2.2 []).1⟩

end LlamaContainer
